import Mathlib

/-
Verification development for the mysteryGame investigation engine.
Shallow embedding of the data model (src/models) and the action engine
(src/game_engine/simple_engine.py): Python dataclasses become structures,
Python sets become Finset String, dicts keyed by entity id become lists
looked up by the id field, and mutating methods become pure functions
returning the updated record.
-/

set_option maxRecDepth 4000

/-- Emotional state of an NPC (src/models/npc.py, class Mood). -/
inductive Mood where
  | friendly
  | neutral
  | suspicious
  | hostile
  | scared
  | guilty
  | helpful
deriving DecidableEq, Repr

/-- NPC role tags (src/models/npc.py, class NPCRole). -/
inductive NPCRole where
  | suspect
  | witness
  | ally
  | victim
  | informant
  | authority
  | neutral
deriving DecidableEq, Repr

/-- Non-player character (src/models/npc.py, class NPC); only the fields the
engine's state mutations touch are embedded. -/
structure NPC where
  id : String
  name : String
  role : NPCRole
  current_location : String
  trust_level : Int
  mood : Mood
  relationship_status : String
  knows_clues : Finset String
  will_share_clues : Finset String
deriving DecidableEq

/-- `NPC._update_relationship_status` (npc.py lines 99-108). -/
def NPC.update_relationship_status (n : NPC) : NPC :=
  { n with relationship_status :=
      if 80 ≤ n.trust_level then "friend"
      else if 50 ≤ n.trust_level then "acquaintance"
      else if 20 ≤ n.trust_level then "stranger"
      else "enemy" }

/-- `NPC._update_mood` (npc.py lines 110-119). -/
def NPC.update_mood (n : NPC) : NPC :=
  { n with mood :=
      if 70 ≤ n.trust_level then Mood.friendly
      else if 40 ≤ n.trust_level then Mood.neutral
      else if 20 ≤ n.trust_level then Mood.suspicious
      else Mood.hostile }

/-- `NPC.modify_trust` (npc.py lines 93-97): clamp trust to [0,100], then
recompute relationship status and mood. -/
def NPC.modify_trust (n : NPC) (amount : Int) : NPC :=
  (({ n with trust_level := max 0 (min 100 (n.trust_level + amount))
    }).update_relationship_status).update_mood

/-- `NPC.can_share_clue` (npc.py lines 132-134). -/
def NPC.can_share_clue (n : NPC) (clue_id : String) : Bool :=
  decide (clue_id ∈ n.will_share_clues ∧ 30 ≤ n.trust_level)

/-- `NPC.share_clue` (npc.py lines 136-141): on success the clue is removed
from the will-share set; the Bool is the Python return value. -/
def NPC.share_clue (n : NPC) (clue_id : String) : NPC × Bool :=
  if n.can_share_clue clue_id then
    ({ n with will_share_clues := n.will_share_clues.erase clue_id }, true)
  else
    (n, false)

/-- Concrete NPC used to witness the share-clue theorem. -/
def sampleNPC : NPC :=
  { id := "officer_chen", name := "Officer Chen", role := NPCRole.authority,
    current_location := "crime_scene", trust_level := 60,
    mood := Mood.neutral, relationship_status := "acquaintance",
    knows_clues := {"initial_timeline"},
    will_share_clues := {"initial_timeline"} }

/-- Quest completion status (src/models/quest.py, class QuestStatus). -/
inductive QuestStatus where
  | locked
  | available
  | active
  | completed
  | failed
deriving DecidableEq

/-- Types of quest objectives (src/models/quest.py, class ObjectiveType). -/
inductive ObjectiveType where
  | find_clue
  | talk_to_npc
  | go_to_location
  | collect_item
  | confront_npc
  | solve_puzzle
  | make_deduction
deriving DecidableEq

/-- Individual quest objective (src/models/quest.py, class QuestObjective). -/
structure QuestObjective where
  id : String
  objective_type : ObjectiveType
  target_id : Option String
  quantity : Int
  completed : Bool
  progress : Int
  requires_objectives : List String
deriving DecidableEq

/-- `QuestObjective.is_available` (quest.py lines 45-47). -/
def QuestObjective.is_available (o : QuestObjective) (completed_objectives : Finset String) : Bool :=
  o.requires_objectives.all (fun req => decide (req ∈ completed_objectives))

/-- `QuestObjective.advance_progress` (quest.py lines 49-55): progress is
capped at quantity and the objective completes once progress reaches it. -/
def QuestObjective.advance_progress (o : QuestObjective) (amount : Int) : QuestObjective × Bool :=
  let o1 := { o with progress := min o.quantity (o.progress + amount) }
  if o.quantity ≤ o1.progress then ({ o1 with completed := true }, true)
  else (o1, false)

/-- Quest (src/models/quest.py, class Quest); the Python dict of objectives
keyed by objective id is embedded as a list looked up by the id field. -/
structure Quest where
  id : String
  status : QuestStatus
  objectives : List QuestObjective
  completed_objectives : Finset String
deriving DecidableEq

/-- `Quest.get_available_objectives` (quest.py lines 91-96). -/
def Quest.get_available_objectives (q : Quest) : List QuestObjective :=
  q.objectives.filter (fun o => !o.completed && o.is_available q.completed_objectives)

/-- The single-entry dict update `self.objectives[objective_id].completed = True`
(quest.py line 101), as a map over the embedded list. -/
def markObjectiveCompleted (oid : String) (o : QuestObjective) : QuestObjective :=
  if o.id = oid then { o with completed := true } else o

/-- `Quest.complete_objective` (quest.py lines 98-108): marks the objective
completed, records it in the completed set, and flips the quest status to
completed when every objective is now completed. -/
def Quest.complete_objective (q : Quest) (oid : String) : Quest × Bool :=
  match q.objectives.find? (fun o => o.id == oid) with
  | none => (q, false)
  | some o =>
    if o.completed then (q, false)
    else
      let objs := q.objectives.map (markObjectiveCompleted oid)
      let q1 := { q with objectives := objs,
                         completed_objectives := insert oid q.completed_objectives }
      if objs.all (fun o2 => o2.completed) then
        ({ q1 with status := QuestStatus.completed }, true)
      else (q1, false)

/-- Concrete prerequisite-free objective used in the sample quest. -/
def sampleQuestObjective : QuestObjective :=
  { id := "o1", objective_type := ObjectiveType.go_to_location,
    target_id := some "police_station", quantity := 1,
    completed := false, progress := 0,
    requires_objectives := [] }

/-- Concrete quest used to witness the quest-completion theorems: a single
not-yet-completed objective with quantity 1 and progress 0. -/
def sampleQuest : Quest :=
  { id := "solve_murder", status := QuestStatus.active,
    objectives := [sampleQuestObjective],
    completed_objectives := ∅ }

/-- Concrete objective used to witness the progress-invariant theorem. -/
def sampleObjective : QuestObjective :=
  { id := "o1", objective_type := ObjectiveType.collect_item,
    target_id := none, quantity := 1, completed := false, progress := 0,
    requires_objectives := [] }

/-- Python truthiness of an optional string: None and the empty string are
falsy, every other string is truthy. -/
def pyTruthy : Option String → Bool
  | none => false
  | some s => !(s == "")

/-- Lifecycle states of a location (src/models/location.py, LocationState). -/
inductive LocationState where
  | locked
  | available
  | active
  | searched
  | completed
deriving DecidableEq

/-- Requirements gating a location connection (src/models/location.py,
class LocationRequirement). -/
structure LocationRequirement where
  requires_item : Option String
  requires_clue : Option String
  requires_quest : Option String
  requires_npc_trust : Option (String × Int)
deriving DecidableEq

/-- Game item (src/models/item.py, class Item); only the fields the engine
reads are embedded. -/
structure Item where
  id : String
  name : String
  is_clue : Bool
deriving DecidableEq

/-- Investigation clue (src/models/item.py, class Clue); only the fields the
engine reads are embedded. -/
structure Clue where
  id : String
  title : String
  requires_stat : Option String
  requires_stat_level : Int
deriving DecidableEq

/-- A game location (src/models/location.py, class Location); the dict of
connection requirements is embedded as an association list. -/
structure Location where
  id : String
  name : String
  connections : List String
  connection_requirements : List (String × LocationRequirement)
  state : LocationState
  visited : Bool
  search_count : Int
  npcs_present : List String
  items_available : List String
  clues_available : List String
  items_taken : Finset String
  clues_found : Finset String
deriving DecidableEq

/-- `Location.get_available_items` (location.py lines 92-94). -/
def Location.get_available_items (l : Location) : List String :=
  l.items_available.filter (fun item => decide (item ∉ l.items_taken))

/-- `Location.get_available_clues` (location.py lines 96-98). -/
def Location.get_available_clues (l : Location) : List String :=
  l.clues_available.filter (fun clue => decide (clue ∉ l.clues_found))

/-- `Location.take_item` (location.py lines 100-105). -/
def Location.take_item (l : Location) (item_id : String) : Location × Bool :=
  if item_id ∈ l.items_available ∧ item_id ∉ l.items_taken then
    ({ l with items_taken := insert item_id l.items_taken }, true)
  else (l, false)

/-- `Location.find_clue` (location.py lines 107-112). -/
def Location.find_clue (l : Location) (clue_id : String) : Location × Bool :=
  if clue_id ∈ l.clues_available ∧ clue_id ∉ l.clues_found then
    ({ l with clues_found := insert clue_id l.clues_found }, true)
  else (l, false)

/-- `Location.visit` (location.py lines 114-118); setting the visited flag
does not change the state field the branch reads, so the branch condition is
stated on the input record. -/
def Location.visit (l : Location) : Location :=
  if l.state = LocationState.available then
    { l with visited := true, state := LocationState.active }
  else { l with visited := true }

/-- `Location.search` (location.py lines 120-124): increments the search
count and marks the location searched when nothing remains to discover at
the time of the call; incrementing the counter does not change the sets the
branch condition reads, so the condition is stated on the input record. -/
def Location.search (l : Location) : Location :=
  if l.get_available_clues.length = 0 ∧ l.get_available_items.length = 0 then
    { l with search_count := l.search_count + 1, state := LocationState.searched }
  else { l with search_count := l.search_count + 1 }

/-- Detective skill scores (src/models/player.py, class PlayerStats). -/
structure PlayerStats where
  investigation : Int
  persuasion : Int
  perception : Int
  intuition : Int
  physical : Int
deriving DecidableEq

/-- Python `str.lower()`, embedded as a character-wise map. -/
def strLower (s : String) : String := ⟨s.data.map Char.toLower⟩

/-- `PlayerStats.get_stat` (player.py lines 16-18): getattr by lowercased
name, defaulting to 0. -/
def PlayerStats.get_stat (s : PlayerStats) (stat_name : String) : Int :=
  if strLower stat_name = "investigation" then s.investigation
  else if strLower stat_name = "persuasion" then s.persuasion
  else if strLower stat_name = "perception" then s.perception
  else if strLower stat_name = "intuition" then s.intuition
  else if strLower stat_name = "physical" then s.physical
  else 0

/-- The player (src/models/player.py, class Player); only the fields the
engine mutates or reads are embedded. -/
structure Player where
  name : String
  stats : PlayerStats
  inventory : List String
  current_location : String
  clues_found : List String
  locations_visited : List String
  npcs_met : List String
  completed_quests : List String
deriving DecidableEq

/-- `Player.add_item` (player.py lines 46-49). -/
def Player.add_item (p : Player) (item_id : String) : Player :=
  if item_id ∈ p.inventory then p
  else { p with inventory := p.inventory ++ [item_id] }

/-- `Player.has_item` (player.py lines 58-60). -/
def Player.has_item (p : Player) (item_id : String) : Bool :=
  decide (item_id ∈ p.inventory)

/-- `Player.add_clue` (player.py lines 62-65). -/
def Player.add_clue (p : Player) (clue_id : String) : Player :=
  if clue_id ∈ p.clues_found then p
  else { p with clues_found := p.clues_found ++ [clue_id] }

/-- `Player.visit_location` (player.py lines 67-71). -/
def Player.visit_location (p : Player) (location_id : String) : Player :=
  if location_id ∈ p.locations_visited then { p with current_location := location_id }
  else { p with current_location := location_id,
                locations_visited := p.locations_visited ++ [location_id] }

/-- `Player.meet_npc` (player.py lines 73-76). -/
def Player.meet_npc (p : Player) (npc_id : String) : Player :=
  if npc_id ∈ p.npcs_met then p
  else { p with npcs_met := p.npcs_met ++ [npc_id] }

/-- Complete game world state (src/models/world.py, class WorldState); each
Python dict keyed by entity id is embedded as a list looked up by the id
field. -/
structure WorldState where
  player : Player
  locations : List Location
  npcs : List NPC
  items : List Item
  clues : List Clue
  quests : List Quest
  current_time : Int
  current_day : Int
deriving DecidableEq

/-- `WorldState.get_location` (world.py lines 36-38). -/
def WorldState.get_location (w : WorldState) (location_id : String) : Option Location :=
  w.locations.find? (fun l => l.id == location_id)

/-- `WorldState.get_current_location` (world.py lines 40-42). -/
def WorldState.get_current_location (w : WorldState) : Option Location :=
  w.get_location w.player.current_location

/-- `WorldState.get_npc` (world.py lines 44-46). -/
def WorldState.get_npc (w : WorldState) (npc_id : String) : Option NPC :=
  w.npcs.find? (fun n => n.id == npc_id)

/-- `WorldState.get_npcs_at_location` (world.py lines 48-50). -/
def WorldState.get_npcs_at_location (w : WorldState) (location_id : String) : List NPC :=
  w.npcs.filter (fun n => n.current_location == location_id)

/-- `WorldState.get_item` (world.py lines 52-54). -/
def WorldState.get_item (w : WorldState) (item_id : String) : Option Item :=
  w.items.find? (fun i => i.id == item_id)

/-- `WorldState.get_clue` (world.py lines 56-58). -/
def WorldState.get_clue (w : WorldState) (clue_id : String) : Option Clue :=
  w.clues.find? (fun c => c.id == clue_id)

/-- `WorldState.get_quest` (world.py lines 60-62). -/
def WorldState.get_quest (w : WorldState) (quest_id : String) : Option Quest :=
  w.quests.find? (fun q => q.id == quest_id)

/-- `WorldState.get_active_quests` (world.py lines 64-66). -/
def WorldState.get_active_quests (w : WorldState) : List Quest :=
  w.quests.filter (fun q => q.status == QuestStatus.active)

/-- `WorldState.advance_time` (world.py lines 75-80): add the minutes and,
if the result reaches 1440, subtract one day and bump the day counter. -/
def WorldState.advance_time (w : WorldState) (minutes : Int) : WorldState :=
  if 1440 ≤ w.current_time + minutes then
    { w with current_time := w.current_time + minutes - 1440,
             current_day := w.current_day + 1 }
  else { w with current_time := w.current_time + minutes }

/-- `LocationRequirement.is_met` (location.py lines 24-37): the conjunction
of whichever requirement components are truthy; a missing NPC fails the
trust component. -/
def LocationRequirement.is_met (r : LocationRequirement) (player : Player)
    (world : WorldState) : Bool :=
  (match r.requires_item with
   | none => true
   | some s => if s == "" then true else player.has_item s) &&
  (match r.requires_clue with
   | none => true
   | some s => if s == "" then true else decide (s ∈ player.clues_found)) &&
  (match r.requires_quest with
   | none => true
   | some s => if s == "" then true else decide (s ∈ player.completed_quests)) &&
  (match r.requires_npc_trust with
   | none => true
   | some nt =>
     match world.get_npc nt.1 with
     | none => false
     | some npc => decide (nt.2 ≤ npc.trust_level))

/-- `Location.can_travel_to` (location.py lines 80-90). -/
def Location.can_travel_to (l : Location) (location_id : String) (player : Player)
    (world : WorldState) : Bool × String :=
  if location_id ∉ l.connections then (false, "Location not connected")
  else
    match l.connection_requirements.find? (fun pr => pr.1 == location_id) with
    | some pr =>
      if !(pr.2.is_met player world) then (false, "Requirements not met")
      else (true, "Can travel")
    | none => (true, "Can travel")

/-- An entry of the action list returned by the engine
(simple_engine.py, get_available_actions dicts). -/
structure GameAction where
  id : String
  text : String
  type : String
  target : Option String
deriving DecidableEq

/-- The examine action the engine always emits (simple_engine.py lines
27-31). -/
def examineActionFor (location : Location) : GameAction :=
  { id := "examine_location", text := "Examine " ++ location.name,
    type := "examine", target := none }

/-- The search action the engine emits when something undiscovered remains
(simple_engine.py lines 47-52). -/
def searchAction : GameAction :=
  { id := "search", text := "Search for evidence", type := "search", target := none }

/-- The talk action the engine emits for one NPC (simple_engine.py lines
36-41). -/
def talkActionFor (npc : NPC) : GameAction :=
  { id := "talk_" ++ npc.id, text := "Talk to " ++ npc.name,
    type := "talk", target := some npc.id }

/-- The travel action the engine emits for one connection, when its target
resolves and is currently travellable (simple_engine.py lines 55-65). -/
def travelActionFor (w : WorldState) (location : Location) (conn_id : String) :
    Option GameAction :=
  match w.get_location conn_id with
  | none => none
  | some conn_loc =>
    if (location.can_travel_to conn_id w.player w).1 then
      some { id := "travel_" ++ conn_id, text := "Travel to " ++ conn_loc.name,
             type := "travel", target := some conn_id }
    else none

/-- `SimpleGameEngine.get_available_actions` (simple_engine.py lines 19-67):
one examine action, one talk action per NPC at the location, one search
action when something undiscovered remains, and one travel action per
connected location that resolves and is currently travellable. -/
def SimpleGameEngine.get_available_actions (w : WorldState) : List GameAction :=
  match w.get_current_location with
  | none => []
  | some location =>
    [examineActionFor location] ++
    (w.get_npcs_at_location location.id).map talkActionFor ++
    (if location.get_available_items ≠ [] ∨ location.get_available_clues ≠ [] then
      [searchAction]
     else []) ++
    location.connections.filterMap (travelActionFor w location)

/-- One iteration of the objective-trigger loop of
`SimpleGameEngine._update_quest_progress` (simple_engine.py lines 238-260),
checking one snapshot objective against the player state. -/
def objectiveTriggerStep (player : Player) (q : Quest) (obj : QuestObjective) : Quest :=
  match obj.objective_type with
  | ObjectiveType.go_to_location =>
    if obj.target_id = some player.current_location then (q.complete_objective obj.id).1
    else q
  | ObjectiveType.collect_item =>
    if pyTruthy obj.target_id then
      if player.has_item (obj.target_id.getD "") then (q.complete_objective obj.id).1
      else q
    else if obj.quantity ≤ (player.inventory.length : Int) then (q.complete_objective obj.id).1
    else q
  | ObjectiveType.find_clue =>
    match obj.target_id with
    | some t => if t ∈ player.clues_found then (q.complete_objective obj.id).1 else q
    | none => q
  | ObjectiveType.talk_to_npc =>
    match obj.target_id with
    | some t => if t ∈ player.npcs_met then (q.complete_objective obj.id).1 else q
    | none => q
  | _ => q

/-- The per-quest body of `_update_quest_progress`: fold the trigger step
over the snapshot of currently available objectives. -/
def updateQuestForPlayer (player : Player) (q : Quest) : Quest :=
  q.get_available_objectives.foldl (objectiveTriggerStep player) q

/-- `SimpleGameEngine._update_quest_progress` (simple_engine.py lines
234-260): run the trigger loop on every active quest. -/
def SimpleGameEngine.update_quest_progress (w : WorldState) : WorldState :=
  { w with quests := w.quests.map (fun q =>
      if q.status = QuestStatus.active then updateQuestForPlayer w.player q else q) }

/-- One iteration of the item loop of `_search_location` (simple_engine.py
lines 168-179): a resolving item is taken from the location and added to
the player's inventory (and case notes when it is also a clue). -/
def searchItemStep (w : WorldState) (st : Location × Player) (item_id : String) :
    Location × Player :=
  match w.get_item item_id with
  | none => st
  | some item =>
    let loc := (st.1.take_item item_id).1
    let p1 := st.2.add_item item_id
    let p2 := if item.is_clue then p1.add_clue item_id else p1
    (loc, p2)

/-- The skill gate of the clue loop (simple_engine.py lines 187-190). -/
def clueDiscoverable (p : Player) (clue : Clue) : Bool :=
  if pyTruthy clue.requires_stat then
    decide (clue.requires_stat_level ≤ p.stats.get_stat (clue.requires_stat.getD ""))
  else true

/-- One iteration of the clue loop of `_search_location` (simple_engine.py
lines 182-198): a resolving clue that passes the skill gate is marked found
and added to the player's case notes. -/
def searchClueStep (w : WorldState) (st : Location × Player) (clue_id : String) :
    Location × Player :=
  match w.get_clue clue_id with
  | none => st
  | some clue =>
    if clueDiscoverable st.2 clue then
      ((st.1.find_clue clue_id).1, st.2.add_clue clue_id)
    else st

/-- Whether the clue identified by `cid` resolves in the registry and passes
the skill gate against the given player. -/
def clueDiscoverableId (w : WorldState) (p : Player) (cid : String) : Bool :=
  match w.get_clue cid with
  | none => false
  | some clue => clueDiscoverable p clue

/-- `SimpleGameEngine._search_location` (simple_engine.py lines 161-206):
bump the search counter, take the first two still-available items, find the
first two still-available clues that pass the skill gate, then re-evaluate
quest triggers. Returns none on the Python AttributeError path (no current
location). -/
def SimpleGameEngine.search_location (w : WorldState) : Option WorldState :=
  match w.get_current_location with
  | none => none
  | some location =>
    let loc1 := location.search
    let st1 := (loc1.get_available_items.take 2).foldl (searchItemStep w) (loc1, w.player)
    let st2 := (st1.1.get_available_clues.take 2).foldl (searchClueStep w) st1
    let w1 := { w with player := st2.2,
                       locations := w.locations.map
                         (fun l : Location => if l.id = st2.1.id then st2.1 else l) }
    some (SimpleGameEngine.update_quest_progress w1)

/-- The state mutations of `SimpleGameEngine._examine_location`
(simple_engine.py lines 98-122): mark the location visited and the player
as having visited it. -/
def SimpleGameEngine.examine_location_state (w : WorldState) (location : Location) :
    WorldState :=
  let loc := location.visit
  { w with player := w.player.visit_location loc.id,
           locations := w.locations.map
             (fun l : Location => if l.id = loc.id then loc else l) }

/-- `SimpleGameEngine._travel_to` (simple_engine.py lines 208-232): reject a
missing or unreachable target without mutation, otherwise move the player,
mark the target visited, advance the clock by 15 minutes, and run the
examine mutations. Returns none on the Python AttributeError path (no
current location). -/
def SimpleGameEngine.travel_to (w : WorldState) (location_id : String) : Option WorldState :=
  match w.get_current_location with
  | none => none
  | some current_loc =>
    match w.get_location location_id with
    | none => some w
    | some target_loc =>
      if !(current_loc.can_travel_to location_id w.player w).1 then some w
      else
        let w1 := { w with player := w.player.visit_location location_id }
        let tv := target_loc.visit
        let w2 := { w1 with locations := w1.locations.map
                              (fun l : Location => if l.id = tv.id then tv else l) }
        let w3 := w2.advance_time 15
        some (SimpleGameEngine.examine_location_state w3 tv)

/-- Concrete crime-scene location: one undiscovered item and two
undiscovered clues gated on investigation levels 5 and 6. -/
def crimeScene : Location :=
  { id := "crime_scene", name := "Crime Scene",
    connections := ["police_station"],
    connection_requirements := [],
    state := LocationState.available, visited := false, search_count := 0,
    npcs_present := ["officer_chen"],
    items_available := ["victim_phone"],
    clues_available := ["clue5", "clue6"],
    items_taken := ∅, clues_found := ∅ }

/-- Concrete police-station location; the forensics-lab edge requires the
clue "wine_residue". -/
def policeStation : Location :=
  { id := "police_station", name := "Police Station",
    connections := ["crime_scene", "forensics_lab"],
    connection_requirements := [("forensics_lab",
      { requires_item := none, requires_clue := some "wine_residue",
        requires_quest := none, requires_npc_trust := none })],
    state := LocationState.available, visited := false, search_count := 0,
    npcs_present := [], items_available := [], clues_available := [],
    items_taken := ∅, clues_found := ∅ }

/-- Concrete forensics-lab location. -/
def forensicsLab : Location :=
  { id := "forensics_lab", name := "Forensics Lab",
    connections := ["police_station"],
    connection_requirements := [],
    state := LocationState.available, visited := false, search_count := 0,
    npcs_present := [], items_available := [], clues_available := [],
    items_taken := ∅, clues_found := ∅ }

/-- Concrete player with investigation 7, starting at the crime scene. -/
def samplePlayer : Player :=
  { name := "Detective",
    stats := { investigation := 7, persuasion := 5, perception := 5,
               intuition := 5, physical := 5 },
    inventory := [], current_location := "crime_scene", clues_found := [],
    locations_visited := [], npcs_met := [], completed_quests := [] }

/-- Concrete world used across the engine-level witnesses and
counterexamples. -/
def sampleWorld : WorldState :=
  { player := samplePlayer,
    locations := [crimeScene, policeStation, forensicsLab],
    npcs := [sampleNPC],
    items := [{ id := "victim_phone", name := "Victim Phone", is_clue := false }],
    clues := [{ id := "clue5", title := "Clue Five",
                requires_stat := some "investigation", requires_stat_level := 5 },
              { id := "clue6", title := "Clue Six",
                requires_stat := some "investigation", requires_stat_level := 6 },
              { id := "wine_residue", title := "Wine Residue",
                requires_stat := none, requires_stat_level := 0 }],
    quests := [sampleQuest],
    current_time := 480, current_day := 1 }

/-- The sample world with the player standing at the police station. -/
def sampleWorldAtStation : WorldState :=
  { sampleWorld with player := { samplePlayer with current_location := "police_station" } }

/-- The sample world at the police station after the player has collected
the clue "wine_residue". -/
def sampleWorldAtStationWithClue : WorldState :=
  { sampleWorld with player :=
      { samplePlayer with current_location := "police_station",
                          clues_found := ["wine_residue"] } }

/-- The sample world after one search of the crime scene (the search that
exhausts both the item and the clue sets there). -/
def sampleWorldSearched : WorldState :=
  (SimpleGameEngine.search_location sampleWorld).getD sampleWorld

/-- The crime scene as it stands inside `sampleWorldSearched`. -/
def crimeSceneSearched : Location :=
  (sampleWorldSearched.get_current_location).getD crimeScene

/-- The sample world after travelling from the crime scene to the police
station. -/
def sampleWorldTraveled : WorldState :=
  (SimpleGameEngine.travel_to sampleWorld "police_station").getD sampleWorld

/-- The world at the police station after the quest-trigger pass has run. -/
def sampleUpdatedWorld : WorldState :=
  SimpleGameEngine.update_quest_progress sampleWorldAtStation

/-- The sample quest as it stands inside `sampleUpdatedWorld`. -/
def sampleUpdatedQuest : Quest :=
  sampleUpdatedWorld.quests.getD 0 sampleQuest

/-- The sample objective as it stands inside `sampleUpdatedQuest`. -/
def sampleUpdatedObjective : QuestObjective :=
  sampleUpdatedQuest.objectives.getD 0 sampleQuestObjective

/-- C1: `modify_trust` sets trust to clamp(old+delta, 0, 100), so the result
is always in [0,100], and immediately recomputes the relationship tier
(friend at trust ≥ 80, acquaintance at ≥ 50, stranger at ≥ 20, else enemy)
and the mood (friendly at ≥ 70, neutral at ≥ 40, suspicious at ≥ 20, else
hostile) as pure functions of the new trust value. -/
theorem modify_trust_clamps_and_recomputes (n : NPC) (delta : Int) :
    (n.modify_trust delta).trust_level = max 0 (min 100 (n.trust_level + delta)) ∧
    0 ≤ (n.modify_trust delta).trust_level ∧
    (n.modify_trust delta).trust_level ≤ 100 ∧
    (n.modify_trust delta).relationship_status =
      (if 80 ≤ (n.modify_trust delta).trust_level then "friend"
       else if 50 ≤ (n.modify_trust delta).trust_level then "acquaintance"
       else if 20 ≤ (n.modify_trust delta).trust_level then "stranger"
       else "enemy") ∧
    (n.modify_trust delta).mood =
      (if 70 ≤ (n.modify_trust delta).trust_level then Mood.friendly
       else if 40 ≤ (n.modify_trust delta).trust_level then Mood.neutral
       else if 20 ≤ (n.modify_trust delta).trust_level then Mood.suspicious
       else Mood.hostile) := by
  refine ⟨rfl, ?_, ?_, rfl, rfl⟩ <;>
    simp only [NPC.modify_trust, NPC.update_relationship_status, NPC.update_mood] <;> omega

/-- C2: `share_clue` succeeds iff trust ≥ 30 and the clue is in the
will-share set; on success the clue is removed so an immediate repeat fails;
on failure the NPC is unchanged. -/
theorem share_clue_spec (n : NPC) (k : String) :
    ((n.share_clue k).2 = true ↔ 30 ≤ n.trust_level ∧ k ∈ n.will_share_clues) ∧
    ((n.share_clue k).2 = true → (((n.share_clue k).1).share_clue k).2 = false) ∧
    ((n.share_clue k).2 = false → (n.share_clue k).1 = n) := by
  unfold NPC.share_clue NPC.can_share_clue
  by_cases h : k ∈ n.will_share_clues ∧ 30 ≤ n.trust_level
  · obtain ⟨hk, ht⟩ := h
    simp [hk, ht]
  · simp [h]
    exact fun ht hk => h ⟨hk, ht⟩

/-- Witness for C2: at trust 60 the disclosure of "initial_timeline"
succeeds, and an immediate second disclosure of the same clue fails. -/
theorem share_clue_spec_witness :
    (sampleNPC.share_clue "initial_timeline").2 = true ∧
    (((sampleNPC.share_clue "initial_timeline").1).share_clue "initial_timeline").2 = false := by
  have h := share_clue_spec sampleNPC "initial_timeline"
  have hs : (sampleNPC.share_clue "initial_timeline").2 = true :=
    h.1.mpr (by constructor <;> decide)
  exact ⟨hs, h.2.1 hs⟩

/-- Helper: a member of the frontier is an objective of the quest and is not
completed. -/
theorem mem_available_objectives {q : Quest} {o : QuestObjective}
    (h : o ∈ q.get_available_objectives) : o ∈ q.objectives ∧ o.completed = false := by
  obtain ⟨h1, h2⟩ := List.mem_filter.mp h
  simp only [Bool.and_eq_true, Bool.not_eq_true'] at h2
  exact ⟨h1, h2.1⟩

/-- C3: an objective of a quest is in `get_available_objectives` iff it is
not completed and all of its prerequisite identifiers are in the quest's
completed set; completing an objective removes it from the frontier. -/
theorem available_objectives_frontier (q : Quest) (o : QuestObjective)
    (ho : o ∈ q.objectives)
    (hnd : (q.objectives.map QuestObjective.id).Nodup) :
    (o ∈ q.get_available_objectives ↔
      o.completed = false ∧ ∀ r ∈ o.requires_objectives, r ∈ q.completed_objectives) ∧
    ∀ oid : String, ∀ o2 ∈ ((q.complete_objective oid).1).get_available_objectives,
      o2.id ≠ oid := by
  constructor
  · simp [Quest.get_available_objectives, List.mem_filter, ho,
      QuestObjective.is_available, List.all_eq_true]
  · intro oid o2 h2 heq
    rcases hfind : q.objectives.find? (fun o3 => o3.id == oid) with _ | o3
    · simp only [Quest.complete_objective, hfind] at h2
      obtain ⟨hm, _⟩ := mem_available_objectives h2
      have := List.find?_eq_none.mp hfind o2 hm
      simp [heq] at this
    · by_cases hc : o3.completed = true
      · simp only [Quest.complete_objective, hfind, hc, if_true] at h2
        obtain ⟨hm, hnc⟩ := mem_available_objectives h2
        have hmem3 := List.mem_of_find?_eq_some hfind
        have hid3 : o3.id = oid := by
          have := List.find?_some hfind
          simpa using this
        have he23 : o2 = o3 :=
          List.inj_on_of_nodup_map hnd hm hmem3 (by rw [heq, hid3])
        rw [he23, hc] at hnc
        exact absurd hnc (by decide)
      · have hobj : ((q.complete_objective oid).1).objectives
            = q.objectives.map (markObjectiveCompleted oid) := by
          by_cases hall :
              (q.objectives.map (markObjectiveCompleted oid)).all (fun x => x.completed) = true
          · simp [Quest.complete_objective, hfind, hc, hall]
          · simp [Quest.complete_objective, hfind, hc, hall]
        obtain ⟨hm, hnc⟩ := mem_available_objectives h2
        rw [hobj] at hm
        obtain ⟨o4, h4, hmo⟩ := List.mem_map.mp hm
        by_cases h5 : o4.id = oid
        · have hcm : o2.completed = true := by
            rw [← hmo]
            simp [markObjectiveCompleted, h5]
          rw [hcm] at hnc
          exact absurd hnc (by decide)
        · have hsame : o2.id = o4.id := by
            rw [← hmo]
            simp [markObjectiveCompleted, h5]
          rw [heq] at hsame
          exact h5 hsame.symm

/-- Witness for C3: the single prerequisite-free, not-completed objective of
the sample quest is in its frontier. -/
theorem available_objectives_frontier_witness :
    sampleQuestObjective ∈ sampleQuest.get_available_objectives :=
  (available_objectives_frontier sampleQuest sampleQuestObjective
    (by decide) (by decide)).1.mpr (by decide)

/-- C4: `complete_objective` flips the quest status to completed exactly on
the call after which every objective is completed (given the quest was not
yet fully completed), and the completed status is never left by further
`complete_objective` calls. -/
theorem complete_objective_terminal (q : Quest) (oid : String) :
    (q.status = QuestStatus.completed →
      ((q.complete_objective oid).1).status = QuestStatus.completed) ∧
    (q.status ≠ QuestStatus.completed →
      ¬(∀ o ∈ q.objectives, o.completed = true) →
      (((q.complete_objective oid).1).status = QuestStatus.completed ↔
        ∀ o ∈ ((q.complete_objective oid).1).objectives, o.completed = true)) := by
  rcases hfind : q.objectives.find? (fun o3 => o3.id == oid) with _ | o3
  · have hq : (q.complete_objective oid).1 = q := by
      simp [Quest.complete_objective, hfind]
    rw [hq]
    exact ⟨fun h => h, fun hne hnall => ⟨fun h => absurd h hne, fun h => absurd h hnall⟩⟩
  · by_cases hc : o3.completed = true
    · have hq : (q.complete_objective oid).1 = q := by
        simp [Quest.complete_objective, hfind, hc]
      rw [hq]
      exact ⟨fun h => h, fun hne hnall => ⟨fun h => absurd h hne, fun h => absurd h hnall⟩⟩
    · by_cases hall :
          (q.objectives.map (markObjectiveCompleted oid)).all (fun x => x.completed) = true
      · have hq : (q.complete_objective oid).1
            = { q with objectives := q.objectives.map (markObjectiveCompleted oid),
                       completed_objectives := insert oid q.completed_objectives,
                       status := QuestStatus.completed } := by
          simp [Quest.complete_objective, hfind, hc, hall]
        rw [hq]
        refine ⟨fun _ => rfl, fun _ _ => ⟨fun _ o h => ?_, fun _ => rfl⟩⟩
        exact List.all_eq_true.mp hall o h
      · have hq : (q.complete_objective oid).1
            = { q with objectives := q.objectives.map (markObjectiveCompleted oid),
                       completed_objectives := insert oid q.completed_objectives } := by
          simp [Quest.complete_objective, hfind, hc, hall]
        rw [hq]
        exact ⟨fun h => h, fun hne _ =>
          ⟨fun h => absurd h hne, fun h => absurd (List.all_eq_true.mpr h) hall⟩⟩

/-- Witness for C4: completing the sole objective of the sample quest flips
its status to completed. -/
theorem complete_objective_terminal_witness :
    ((sampleQuest.complete_objective "o1").1).status = QuestStatus.completed :=
  ((complete_objective_terminal sampleQuest "o1").2 (by decide) (by decide)).mpr (by decide)

/-- Counterexample for C5: `Quest.complete_objective` marks an objective with
quantity 1 and progress 0 as completed without advancing its progress, so the
claimed invariant completed → progress ≥ quantity fails. -/
theorem complete_objective_progress_counterexample :
    ∃ o ∈ ((sampleQuest.complete_objective "o1").1).objectives,
      o.completed = true ∧ o.progress < o.quantity := by decide

/-- C5 (amended): `QuestObjective.advance_progress` with a non-negative
amount preserves the invariant completed → progress ≥ quantity; the path
through `Quest.complete_objective` does not (see the counterexample). -/
theorem advance_progress_preserves_invariant (o : QuestObjective) (amount : Int)
    (hamt : 0 ≤ amount)
    (hinv : o.completed = true → o.quantity ≤ o.progress) :
    (o.advance_progress amount).1.completed = true →
      (o.advance_progress amount).1.quantity ≤ (o.advance_progress amount).1.progress := by
  unfold QuestObjective.advance_progress
  by_cases hc : o.quantity ≤ min o.quantity (o.progress + amount)
  · simp [hc]
  · simp [hc]
    cases hcb : o.completed with
    | false => rfl
    | true => exact absurd (hinv hcb) (by omega)

/-- Witness for C5 (amended): advancing the sample objective by 1 completes
it with progress equal to its quantity, satisfying the invariant. -/
theorem advance_progress_preserves_invariant_witness :
    (sampleObjective.advance_progress 1).1.quantity ≤
      (sampleObjective.advance_progress 1).1.progress :=
  advance_progress_preserves_invariant sampleObjective 1 (by decide) (by decide) (by decide)

/-- C10: for a world time in [0,1440) and 0 ≤ m < 1440, `advance_time m`
increments the day counter by exactly 1 iff old_time + m reaches 1440, and
the new time is (old_time + m) mod 1440. -/
theorem advance_time_spec (w : WorldState) (m : Int)
    (ht0 : 0 ≤ w.current_time) (ht1 : w.current_time < 1440)
    (hm0 : 0 ≤ m) (hm1 : m < 1440) :
    (w.advance_time m).current_day =
      (if 1440 ≤ w.current_time + m then w.current_day + 1 else w.current_day) ∧
    (w.advance_time m).current_time = (w.current_time + m) % 1440 := by
  unfold WorldState.advance_time
  by_cases hc : 1440 ≤ w.current_time + m <;> constructor <;> simp [hc] <;> omega

/-- Witness for C10: at time 480 on day 1, advancing by 1000 minutes rolls
over to time 40 on day 2. -/
theorem advance_time_spec_witness :
    (sampleWorld.advance_time 1000).current_day = 2 ∧
    (sampleWorld.advance_time 1000).current_time = 40 := by
  have h := advance_time_spec sampleWorld 1000 (by decide) (by decide) (by decide) (by decide)
  refine ⟨?_, ?_⟩
  · rw [h.1]; decide
  · rw [h.2]; decide

/-- Counterexample for C6: travelling from the crime scene to the police
station — the target of the available go-to-location objective of the
active sample quest — moves the player there but leaves the objective
uncompleted, because `_travel_to` never re-evaluates quest triggers. -/
theorem travel_does_not_trigger_counterexample :
    SimpleGameEngine.travel_to sampleWorld "police_station" = some sampleWorldTraveled ∧
    sampleWorldTraveled.player.current_location = "police_station" ∧
    sampleQuest.status = QuestStatus.active ∧
    sampleQuestObjective ∈ sampleQuest.get_available_objectives ∧
    sampleQuestObjective.objective_type = ObjectiveType.go_to_location ∧
    sampleQuestObjective.target_id = some "police_station" ∧
    sampleWorldTraveled.quests = [sampleQuest] ∧
    sampleQuestObjective.completed = false :=
  ⟨rfl, by decide, by decide, by decide, by decide, by decide, rfl, by decide⟩

/-- Counterexample for C8: the search that takes the last item and finds the
last clues of the crime scene leaves both available sets empty but the
location state is still not `searched`, because `Location.search` runs its
exhaustion check before the discoveries are removed. -/
theorem search_state_counterexample :
    SimpleGameEngine.search_location sampleWorld = some sampleWorldSearched ∧
    sampleWorldSearched.get_current_location = some crimeSceneSearched ∧
    crimeSceneSearched.get_available_items = [] ∧
    crimeSceneSearched.get_available_clues = [] ∧
    crimeSceneSearched.state ≠ LocationState.searched :=
  ⟨rfl, rfl, by decide, by decide, by decide⟩

/-- Helper: marking an objective completed does not change its identifier. -/
theorem mark_id (oid : String) (o : QuestObjective) :
    (markObjectiveCompleted oid o).id = o.id := by
  unfold markObjectiveCompleted
  split <;> rfl

/-- Helper: `complete_objective` either leaves the objective list unchanged
or maps the marking function over it. -/
theorem complete_objective_objs (q : Quest) (oid : String) :
    ((q.complete_objective oid).1).objectives = q.objectives ∨
    ((q.complete_objective oid).1).objectives = q.objectives.map (markObjectiveCompleted oid) := by
  rcases hfind : q.objectives.find? (fun o => o.id == oid) with _ | o3
  · left
    simp [Quest.complete_objective, hfind]
  · by_cases hc : o3.completed = true
    · left
      simp [Quest.complete_objective, hfind, hc]
    · right
      by_cases hall :
          (q.objectives.map (markObjectiveCompleted oid)).all (fun x => x.completed) = true
      · simp [Quest.complete_objective, hfind, hc, hall]
      · simp [Quest.complete_objective, hfind, hc, hall]

/-- Helper: `complete_objective` does not change the quest identifier. -/
theorem complete_objective_qid (q : Quest) (oid : String) :
    ((q.complete_objective oid).1).id = q.id := by
  rcases hfind : q.objectives.find? (fun o => o.id == oid) with _ | o3
  · simp [Quest.complete_objective, hfind]
  · by_cases hc : o3.completed = true
    · simp [Quest.complete_objective, hfind, hc]
    · by_cases hall :
          (q.objectives.map (markObjectiveCompleted oid)).all (fun x => x.completed) = true
      · simp [Quest.complete_objective, hfind, hc, hall]
      · simp [Quest.complete_objective, hfind, hc, hall]

/-- Helper: `complete_objective` preserves the list of objective ids. -/
theorem complete_objective_ids (q : Quest) (oid : String) :
    ((q.complete_objective oid).1).objectives.map QuestObjective.id
      = q.objectives.map QuestObjective.id := by
  rcases complete_objective_objs q oid with he | he <;> rw [he]
  rw [List.map_map]
  exact List.map_congr_left (fun o _ => mark_id oid o)

/-- Helper: objectives already completed stay completed across
`complete_objective`. -/
theorem complete_objective_keeps_completed (q : Quest) (oid tid : String)
    (h : ∀ o ∈ q.objectives, o.id = tid → o.completed = true) :
    ∀ o ∈ ((q.complete_objective oid).1).objectives, o.id = tid → o.completed = true := by
  rcases complete_objective_objs q oid with he | he <;> rw [he]
  · exact h
  · intro o ho hid
    obtain ⟨o4, h4, rfl⟩ := List.mem_map.mp ho
    by_cases h5 : o4.id = oid
    · simp [markObjectiveCompleted, h5]
    · simp only [markObjectiveCompleted, if_neg h5] at hid ⊢
      exact h o4 h4 hid

/-- Helper: when an objective with the given id exists, after
`complete_objective` every objective with that id is completed. -/
theorem complete_objective_marks (q : Quest) (oid : String)
    (hnd : (q.objectives.map QuestObjective.id).Nodup)
    (hex : ∃ o ∈ q.objectives, o.id = oid) :
    ∀ o2 ∈ ((q.complete_objective oid).1).objectives, o2.id = oid → o2.completed = true := by
  obtain ⟨e, he, heid⟩ := hex
  rcases hfind : q.objectives.find? (fun o => o.id == oid) with _ | o3
  · exfalso
    have := List.find?_eq_none.mp hfind e he
    simp [heid] at this
  · have h3mem := List.mem_of_find?_eq_some hfind
    have h3id : o3.id = oid := by
      have := List.find?_some hfind
      simpa using this
    by_cases hc : o3.completed = true
    · have hres : ((q.complete_objective oid).1).objectives = q.objectives := by
        simp [Quest.complete_objective, hfind, hc]
      rw [hres]
      intro o2 h2 h2id
      have h23 : o2 = o3 := List.inj_on_of_nodup_map hnd h2 h3mem (by rw [h2id, h3id])
      rw [h23]
      exact hc
    · have hres : ((q.complete_objective oid).1).objectives
          = q.objectives.map (markObjectiveCompleted oid) := by
        by_cases hall :
            (q.objectives.map (markObjectiveCompleted oid)).all (fun x => x.completed) = true
        · simp [Quest.complete_objective, hfind, hc, hall]
        · simp [Quest.complete_objective, hfind, hc, hall]
      rw [hres]
      intro o2 h2 h2id
      obtain ⟨o4, h4, rfl⟩ := List.mem_map.mp h2
      by_cases h5 : o4.id = oid
      · simp [markObjectiveCompleted, h5]
      · simp only [markObjectiveCompleted, if_neg h5] at h2id
        exact absurd h2id h5

/-- Helper: a trigger step either leaves the quest unchanged or completes
the inspected objective. -/
theorem triggerStep_cases (p : Player) (q : Quest) (a : QuestObjective) :
    objectiveTriggerStep p q a = q ∨
    objectiveTriggerStep p q a = (q.complete_objective a.id).1 := by
  cases hot : a.objective_type <;> simp only [objectiveTriggerStep, hot]
  case go_to_location => split_ifs <;> first | exact Or.inl rfl | exact Or.inr rfl
  case collect_item => split_ifs <;> first | exact Or.inl rfl | exact Or.inr rfl
  case find_clue =>
    cases hta : a.target_id <;> simp only [hta]
    · first | exact Or.inl rfl | exact Or.inl trivial
    · split_ifs <;> first | exact Or.inl rfl | exact Or.inr rfl
  case talk_to_npc =>
    cases hta : a.target_id <;> simp only [hta]
    · first | exact Or.inl rfl | exact Or.inl trivial
    · split_ifs <;> first | exact Or.inl rfl | exact Or.inr rfl
  all_goals first | exact Or.inl rfl | exact Or.inl trivial

/-- Helper: a trigger step preserves the list of objective ids. -/
theorem triggerStep_ids (p : Player) (q : Quest) (a : QuestObjective) :
    ((objectiveTriggerStep p q a).objectives).map QuestObjective.id
      = q.objectives.map QuestObjective.id := by
  rcases triggerStep_cases p q a with he | he <;> rw [he]
  exact complete_objective_ids q a.id

/-- Helper: a trigger step preserves the quest identifier. -/
theorem triggerStep_qid (p : Player) (q : Quest) (a : QuestObjective) :
    (objectiveTriggerStep p q a).id = q.id := by
  rcases triggerStep_cases p q a with he | he <;> rw [he]
  exact complete_objective_qid q a.id

/-- Helper: objectives already completed stay completed across a fold of
trigger steps. -/
theorem foldl_trigger_keeps (p : Player) (l : List QuestObjective) (tid : String) :
    ∀ q : Quest, (∀ o ∈ q.objectives, o.id = tid → o.completed = true) →
      ∀ o ∈ (l.foldl (objectiveTriggerStep p) q).objectives, o.id = tid → o.completed = true := by
  induction l with
  | nil => exact fun q h => h
  | cons a tl ih =>
    intro q h
    rw [List.foldl_cons]
    apply ih
    rcases triggerStep_cases p q a with he | he <;> rw [he]
    · exact h
    · exact complete_objective_keeps_completed q a.id tid h

/-- Helper: the quest identifier is unchanged by a fold of trigger steps. -/
theorem foldl_trigger_qid (p : Player) (l : List QuestObjective) :
    ∀ q : Quest, (l.foldl (objectiveTriggerStep p) q).id = q.id := by
  induction l with
  | nil => exact fun q => rfl
  | cons a tl ih =>
    intro q
    rw [List.foldl_cons, ih, triggerStep_qid]

/-- Helper: the fold of trigger steps completes every snapshot objective
whose trigger condition holds against the player. -/
theorem foldl_trigger_completes (p : Player) (snapshot : List QuestObjective)
    (obj : QuestObjective)
    (hcond : (obj.objective_type = ObjectiveType.go_to_location ∧
                obj.target_id = some p.current_location) ∨
             (obj.objective_type = ObjectiveType.talk_to_npc ∧
                ∃ t, obj.target_id = some t ∧ t ∈ p.npcs_met)) :
    ∀ q : Quest, obj ∈ snapshot →
      (q.objectives.map QuestObjective.id).Nodup →
      (∃ o ∈ q.objectives, o.id = obj.id) →
      ∀ o2 ∈ (snapshot.foldl (objectiveTriggerStep p) q).objectives,
        o2.id = obj.id → o2.completed = true := by
  induction snapshot with
  | nil => intro q hobj; cases hobj
  | cons a tl ih =>
    intro q hobj hnd hex
    rw [List.foldl_cons]
    rcases List.mem_cons.mp hobj with rfl | htl
    · have hstep : objectiveTriggerStep p q obj = (q.complete_objective obj.id).1 := by
        rcases hcond with ⟨hty, hta⟩ | ⟨hty, t, hta, hmem⟩
        · simp only [objectiveTriggerStep, hty, hta]
          simp
        · simp only [objectiveTriggerStep, hty, hta]
          simp [hmem]
      rw [hstep]
      exact foldl_trigger_keeps p tl obj.id _ (complete_objective_marks q obj.id hnd hex)
    · have hex2 : ∃ o ∈ (objectiveTriggerStep p q a).objectives, o.id = obj.id := by
        obtain ⟨e, he, heid⟩ := hex
        have hmm : obj.id ∈ ((objectiveTriggerStep p q a).objectives).map QuestObjective.id := by
          rw [triggerStep_ids]
          exact List.mem_map.mpr ⟨e, he, heid⟩
        obtain ⟨e2, he2, heid2⟩ := List.mem_map.mp hmm
        exact ⟨e2, he2, heid2⟩
      exact ih (objectiveTriggerStep p q a) htl (by rw [triggerStep_ids]; exact hnd) hex2

/-- Helper: advancing the clock does not touch the quest registry. -/
theorem advance_time_quests (w : WorldState) (m : Int) :
    (w.advance_time m).quests = w.quests := by
  unfold WorldState.advance_time
  split <;> rfl

/-- Helper: the examine mutations do not touch the quest registry. -/
theorem examine_quests (w : WorldState) (loc : Location) :
    (SimpleGameEngine.examine_location_state w loc).quests = w.quests := rfl

/-- Helper: the per-quest trigger pass preserves the quest identifier. -/
theorem updateQuest_qid (p : Player) (q : Quest) :
    (updateQuestForPlayer p q).id = q.id :=
  foldl_trigger_qid p q.get_available_objectives q

/-- C6 (amended): the travel action never re-evaluates quest triggers (the
quest registry is unchanged by `_travel_to`); the trigger pass
`_update_quest_progress` — which the simple engine invokes only at the end
of a search action — does complete every currently available go-to-location
objective whose target is the player's current location (and every
talk-to-character objective whose target is in the player's met set) of
every active quest. -/
theorem quest_triggers_spec :
    (∀ (w w2 : WorldState) (t : String),
        SimpleGameEngine.travel_to w t = some w2 → w2.quests = w.quests) ∧
    (∀ (w : WorldState) (q : Quest) (obj : QuestObjective),
        q ∈ w.quests → (w.quests.map Quest.id).Nodup →
        q.status = QuestStatus.active →
        (q.objectives.map QuestObjective.id).Nodup →
        obj ∈ q.get_available_objectives →
        ((obj.objective_type = ObjectiveType.go_to_location ∧
            obj.target_id = some w.player.current_location) ∨
         (obj.objective_type = ObjectiveType.talk_to_npc ∧
            ∃ t, obj.target_id = some t ∧ t ∈ w.player.npcs_met)) →
        ∀ q2 ∈ (SimpleGameEngine.update_quest_progress w).quests, q2.id = q.id →
          ∀ o2 ∈ q2.objectives, o2.id = obj.id → o2.completed = true) := by
  constructor
  · intro w w2 t h
    unfold SimpleGameEngine.travel_to at h
    rcases hcur : w.get_current_location with _ | cl
    · rw [hcur] at h
      cases h
    · rw [hcur] at h
      rcases htar : w.get_location t with _ | tl
      · rw [htar] at h
        simp only at h
        cases h
        rfl
      · rw [htar] at h
        rcases hb : (cl.can_travel_to t w.player w).1 with _ | _
        · simp only [hb, Bool.not_false, if_true] at h
          cases h
          rfl
        · simp only [hb, Bool.not_true, if_false] at h
          cases h
          rw [examine_quests, advance_time_quests]
  · intro w q obj hq hqnd hact hnd hobj hcond q2 hq2 hqid o2 ho2 hoid
    unfold SimpleGameEngine.update_quest_progress at hq2
    simp only [List.mem_map] at hq2
    obtain ⟨q0, hq0, hfq0⟩ := hq2
    have hq0id : q0.id = q.id := by
      rw [← hqid, ← hfq0]
      by_cases hs : q0.status = QuestStatus.active
      · rw [if_pos hs]
        exact (updateQuest_qid w.player q0).symm
      · rw [if_neg hs]
    have hq0q : q0 = q := List.inj_on_of_nodup_map hqnd hq0 hq hq0id
    subst hq0q
    rw [if_pos hact] at hfq0
    subst hfq0
    have hmem := mem_available_objectives hobj
    exact foldl_trigger_completes w.player q0.get_available_objectives obj hcond q0 hobj hnd
      ⟨obj, hmem.1, rfl⟩ o2 ho2 hoid

/-- Witness for C6 (amended): travelling to the police station leaves the
quest registry untouched, and running the trigger pass with the player at
the police station completes the go-to-location objective. -/
theorem quest_triggers_spec_witness :
    sampleWorldTraveled.quests = sampleWorld.quests ∧
    sampleUpdatedObjective.completed = true := by
  constructor
  · exact quest_triggers_spec.1 sampleWorld sampleWorldTraveled "police_station" rfl
  · refine quest_triggers_spec.2 sampleWorldAtStation sampleQuest sampleQuestObjective
      ?_ ?_ ?_ ?_ ?_ ?_ sampleUpdatedQuest ?_ ?_ sampleUpdatedObjective ?_ ?_
    · show sampleQuest ∈ [sampleQuest]
      exact List.mem_singleton.mpr rfl
    · decide
    · decide
    · decide
    · decide
    · exact Or.inl ⟨by decide, by decide⟩
    · show sampleUpdatedQuest ∈ [sampleUpdatedQuest]
      exact List.mem_singleton.mpr rfl
    · decide
    · show sampleUpdatedObjective ∈ [sampleUpdatedObjective]
      exact List.mem_singleton.mpr rfl
    · decide

/-- Helper: when nothing remains to discover, `Location.search` marks the
location searched. -/
theorem search_state_searched (l : Location)
    (hcl : l.get_available_clues = []) (hit : l.get_available_items = []) :
    l.search = { l with search_count := l.search_count + 1,
                        state := LocationState.searched } := by
  unfold Location.search
  rw [if_pos ⟨by rw [hcl]; rfl, by rw [hit]; rfl⟩]

/-- Helper: looking up the replaced entry after an id-keyed replacement
returns the replacement, provided an entry with that id exists. -/
theorem find_replaced (ls : List Location) (lid : String) (rep : Location)
    (hrep : rep.id = lid) (hex : ∃ l ∈ ls, l.id = lid) :
    (ls.map (fun l : Location => if l.id = lid then rep else l)).find?
        (fun l => l.id == lid) = some rep := by
  induction ls with
  | nil =>
    obtain ⟨l, hl, _⟩ := hex
    cases hl
  | cons a tl ih =>
    rw [List.map_cons]
    by_cases ha : a.id = lid
    · rw [if_pos ha]
      exact List.find?_cons_of_pos _ (by simp [hrep])
    · rw [if_neg ha, List.find?_cons_of_neg]
      · apply ih
        rcases hex with ⟨l, hl, hlid⟩
        rcases List.mem_cons.mp hl with rfl | hl2
        · exact absurd hlid ha
        · exact ⟨l, hl2, hlid⟩
      · simp [ha]

/-- C8 (amended): `Location.search` runs its exhaustion check before the
engine removes the discoveries of the current search, so the state becomes
`searched` on the first search action that begins with both available sets
already empty — the search that empties them leaves the state unchanged
(see the counterexample). -/
theorem search_marks_searched_when_exhausted (w : WorldState) (loc : Location)
    (hloc : w.get_current_location = some loc)
    (hit : loc.get_available_items = [])
    (hcl : loc.get_available_clues = []) :
    (SimpleGameEngine.search_location w).isSome = true ∧
    (((SimpleGameEngine.search_location w).getD w).get_location loc.id).map Location.state
      = some LocationState.searched := by
  have hs := search_state_searched loc hcl hit
  have hai : (loc.search).get_available_items = [] := by rw [hs]; exact hit
  have hac : (loc.search).get_available_clues = [] := by rw [hs]; exact hcl
  have heq : SimpleGameEngine.search_location w
      = some (SimpleGameEngine.update_quest_progress
          { w with player := w.player,
                   locations := w.locations.map
                     (fun l : Location => if l.id = (loc.search).id then loc.search else l) }) := by
    simp only [SimpleGameEngine.search_location, hloc, hai, hac, List.take_nil, List.foldl_nil]
  rw [heq]
  refine ⟨rfl, ?_⟩
  simp only [Option.getD_some]
  have hid : (loc.search).id = loc.id := by rw [hs]
  have hloc2 : (w.locations.find? (fun l => l.id == w.player.current_location)) = some loc := hloc
  have hmem : loc ∈ w.locations := List.mem_of_find?_eq_some hloc2
  show ((WorldState.get_location _ loc.id).map Location.state) = _
  unfold WorldState.get_location
  show (((w.locations.map
      (fun l : Location => if l.id = (loc.search).id then loc.search else l)).find?
        (fun l => l.id == loc.id)).map Location.state) = _
  rw [hid]
  rw [find_replaced w.locations loc.id (loc.search) hid ⟨loc, hmem, rfl⟩]
  rw [hs]
  rfl

/-- Witness for C8 (amended): searching the already-exhausted crime scene a
second time marks it searched. -/
theorem search_marks_searched_witness :
    (SimpleGameEngine.search_location sampleWorldSearched).isSome = true ∧
    (((SimpleGameEngine.search_location sampleWorldSearched).getD
        sampleWorldSearched).get_location crimeSceneSearched.id).map Location.state
      = some LocationState.searched :=
  search_marks_searched_when_exhausted sampleWorldSearched crimeSceneSearched
    rfl (by decide) (by decide)

/-- Helper: an item-phase step only changes the taken set of the location
and never the player's stats. -/
theorem searchItemStep_fields (w : WorldState) (st : Location × Player) (i : String) :
    ((searchItemStep w st i).1.clues_found = st.1.clues_found) ∧
    ((searchItemStep w st i).1.clues_available = st.1.clues_available) ∧
    ((searchItemStep w st i).1.items_available = st.1.items_available) ∧
    ((searchItemStep w st i).1.id = st.1.id) ∧
    ((searchItemStep w st i).2.stats = st.2.stats) := by
  unfold searchItemStep
  cases w.get_item i with
  | none => exact ⟨rfl, rfl, rfl, rfl, rfl⟩
  | some it =>
    dsimp only
    unfold Location.take_item Player.add_item Player.add_clue
    split_ifs <;> exact ⟨rfl, rfl, rfl, rfl, rfl⟩

/-- Helper: an item-phase step on a resolving, still-listed item inserts it
into the taken set. -/
theorem searchItemStep_taken (w : WorldState) (st : Location × Player) (i : String)
    (hsome : (w.get_item i).isSome = true) (hav : i ∈ st.1.items_available) :
    (searchItemStep w st i).1.items_taken = insert i st.1.items_taken := by
  unfold searchItemStep
  cases hgi : w.get_item i with
  | none => simp [hgi] at hsome
  | some it =>
    dsimp only
    unfold Location.take_item
    by_cases hmem : i ∈ st.1.items_taken
    · rw [if_neg (fun hcon => hcon.2 hmem)]
      exact (Finset.insert_eq_self.mpr hmem).symm
    · rw [if_pos ⟨hav, hmem⟩]

/-- Helper: the item phase of a search takes exactly the processed item ids
and leaves every other location field and the player's stats unchanged. -/
theorem itemPhase_spec (w : WorldState) (ids : List String) :
    ∀ st : Location × Player,
      (∀ i ∈ ids, (w.get_item i).isSome = true) →
      (∀ i ∈ ids, i ∈ st.1.items_available) →
      ((ids.foldl (searchItemStep w) st).1.items_taken
          = st.1.items_taken ∪ ids.toFinset) ∧
      ((ids.foldl (searchItemStep w) st).1.clues_found = st.1.clues_found) ∧
      ((ids.foldl (searchItemStep w) st).1.clues_available = st.1.clues_available) ∧
      ((ids.foldl (searchItemStep w) st).1.items_available = st.1.items_available) ∧
      ((ids.foldl (searchItemStep w) st).1.id = st.1.id) ∧
      ((ids.foldl (searchItemStep w) st).2.stats = st.2.stats) := by
  induction ids with
  | nil =>
    intro st _ _
    exact ⟨by simp, rfl, rfl, rfl, rfl, rfl⟩
  | cons a tl ih =>
    intro st hres hav
    rw [List.foldl_cons]
    obtain ⟨f1, f2, f3, f4, f5⟩ := searchItemStep_fields w st a
    have ht := searchItemStep_taken w st a (hres a (List.mem_cons_self a tl))
      (hav a (List.mem_cons_self a tl))
    obtain ⟨g1, g2, g3, g4, g5, g6⟩ := ih (searchItemStep w st a)
      (fun i hi => hres i (List.mem_cons_of_mem a hi))
      (fun i hi => by rw [f3]; exact hav i (List.mem_cons_of_mem a hi))
    refine ⟨?_, ?_, ?_, ?_, ?_, ?_⟩
    · rw [g1, ht]
      ext x
      simp [List.toFinset_cons]
    · rw [g2, f1]
    · rw [g3, f2]
    · rw [g4, f3]
    · rw [g5, f4]
    · rw [g6, f5]

/-- Helper: a clue-phase step only changes the found set of the location and
never the player's stats. -/
theorem searchClueStep_fields (w : WorldState) (st : Location × Player) (c : String) :
    ((searchClueStep w st c).1.items_taken = st.1.items_taken) ∧
    ((searchClueStep w st c).1.clues_available = st.1.clues_available) ∧
    ((searchClueStep w st c).1.items_available = st.1.items_available) ∧
    ((searchClueStep w st c).1.id = st.1.id) ∧
    ((searchClueStep w st c).2.stats = st.2.stats) := by
  unfold searchClueStep
  cases w.get_clue c with
  | none => exact ⟨rfl, rfl, rfl, rfl, rfl⟩
  | some clue =>
    dsimp only
    unfold Location.find_clue Player.add_clue
    split_ifs <;> exact ⟨rfl, rfl, rfl, rfl, rfl⟩

/-- Helper: the skill gate only reads the player's stats. -/
theorem clueDiscoverable_congr (p1 p2 : Player) (h : p1.stats = p2.stats) (clue : Clue) :
    clueDiscoverable p1 clue = clueDiscoverable p2 clue := by
  unfold clueDiscoverable
  rw [h]

/-- Helper: a clue-phase step on a still-listed clue inserts it into the
found set exactly when the resolving clue passes the skill gate. -/
theorem searchClueStep_found (w : WorldState) (st : Location × Player) (c : String)
    (hav : c ∈ st.1.clues_available) :
    (searchClueStep w st c).1.clues_found =
      (if clueDiscoverableId w st.2 c = true then insert c st.1.clues_found
       else st.1.clues_found) := by
  unfold searchClueStep clueDiscoverableId
  cases hgc : w.get_clue c with
  | none => simp
  | some clue =>
    dsimp only
    by_cases hd : clueDiscoverable st.2 clue = true
    · rw [if_pos hd, if_pos hd]
      dsimp only
      unfold Location.find_clue
      by_cases hmem : c ∈ st.1.clues_found
      · rw [if_neg (fun hcon => hcon.2 hmem)]
        exact (Finset.insert_eq_self.mpr hmem).symm
      · rw [if_pos ⟨hav, hmem⟩]
    · rw [if_neg hd, if_neg hd]

/-- Helper: the clue phase of a search finds exactly the processed clue ids
that pass the registry-and-skill gate, and leaves the taken set unchanged. -/
theorem cluePhase_spec (w : WorldState) (ids : List String) :
    ∀ st : Location × Player,
      (∀ c ∈ ids, c ∈ st.1.clues_available) →
      st.2.stats = w.player.stats →
      ((ids.foldl (searchClueStep w) st).1.clues_found
          = st.1.clues_found ∪
            (ids.filter (fun c => clueDiscoverableId w w.player c)).toFinset) ∧
      ((ids.foldl (searchClueStep w) st).1.items_taken = st.1.items_taken) ∧
      ((ids.foldl (searchClueStep w) st).1.id = st.1.id) := by
  induction ids with
  | nil =>
    intro st _ _
    exact ⟨by simp, rfl, rfl⟩
  | cons a tl ih =>
    intro st hav hstats
    rw [List.foldl_cons, List.filter_cons]
    obtain ⟨f1, f2, f3, f4, f5⟩ := searchClueStep_fields w st a
    have hfound := searchClueStep_found w st a (hav a (List.mem_cons_self a tl))
    have hdd : clueDiscoverableId w st.2 a = clueDiscoverableId w w.player a := by
      unfold clueDiscoverableId
      cases w.get_clue a with
      | none => rfl
      | some clue => exact clueDiscoverable_congr _ _ hstats clue
    obtain ⟨g1, g2, g3⟩ := ih (searchClueStep w st a)
      (fun c hc => by rw [f2]; exact hav c (List.mem_cons_of_mem a hc))
      (by rw [f5, hstats])
    refine ⟨?_, ?_, ?_⟩
    · rw [g1, hfound, hdd]
      by_cases hda : clueDiscoverableId w w.player a = true
      · rw [if_pos hda, if_pos hda]
        ext x
        simp [List.toFinset_cons]
      · rw [if_neg hda, if_neg hda]
    · rw [g2, f1]
    · rw [g3, f4]

/-- Helper: `Location.search` preserves the identifier and all four
discovery sets. -/
theorem search_fields (l : Location) :
    (l.search).id = l.id ∧ (l.search).items_taken = l.items_taken ∧
    (l.search).clues_found = l.clues_found ∧
    (l.search).items_available = l.items_available ∧
    (l.search).clues_available = l.clues_available := by
  unfold Location.search
  split_ifs <;> exact ⟨rfl, rfl, rfl, rfl, rfl⟩

/-- Helper: the available-item list only depends on the listed and taken
sets. -/
theorem get_available_items_congr (l1 l2 : Location)
    (h1 : l1.items_available = l2.items_available) (h2 : l1.items_taken = l2.items_taken) :
    l1.get_available_items = l2.get_available_items := by
  unfold Location.get_available_items
  rw [h1, h2]

/-- Helper: the available-clue list only depends on the listed and found
sets. -/
theorem get_available_clues_congr (l1 l2 : Location)
    (h1 : l1.clues_available = l2.clues_available) (h2 : l1.clues_found = l2.clues_found) :
    l1.get_available_clues = l2.get_available_clues := by
  unfold Location.get_available_clues
  rw [h1, h2]

/-- C7: a single search action takes exactly the first two (in list order)
not-yet-taken items of the current location, and finds exactly those of the
first two (in list order) not-yet-found clues that resolve and whose skill
gate the player passes — nothing else is taken or found. -/
theorem search_discovers_first_two (w : WorldState) (loc : Location)
    (hloc : w.get_current_location = some loc)
    (hitems : ∀ i ∈ loc.get_available_items.take 2, (w.get_item i).isSome = true)
    (_hclues : ∀ c ∈ loc.get_available_clues.take 2, (w.get_clue c).isSome = true) :
    (SimpleGameEngine.search_location w).isSome = true ∧
    (((SimpleGameEngine.search_location w).getD w).get_location loc.id).map Location.items_taken
      = some (loc.items_taken ∪ (loc.get_available_items.take 2).toFinset) ∧
    (((SimpleGameEngine.search_location w).getD w).get_location loc.id).map Location.clues_found
      = some (loc.clues_found ∪ ((loc.get_available_clues.take 2).filter
          (fun c => clueDiscoverableId w w.player c)).toFinset) := by
  obtain ⟨s1, s2, s3, s4, s5⟩ := search_fields loc
  have hgi : (loc.search).get_available_items = loc.get_available_items :=
    get_available_items_congr _ _ s4 s2
  -- the item phase
  have havI : ∀ i ∈ (loc.search).get_available_items.take 2, i ∈ (loc.search).items_available := by
    intro i hi
    have h1 : i ∈ (loc.search).get_available_items := List.take_subset 2 _ hi
    have h2 : i ∈ (loc.search).items_available.filter
        (fun item => decide (item ∉ (loc.search).items_taken)) := h1
    exact (List.mem_filter.mp h2).1
  have hresI : ∀ i ∈ (loc.search).get_available_items.take 2, (w.get_item i).isSome = true := by
    intro i hi
    rw [hgi] at hi
    exact hitems i hi
  obtain ⟨g1, g2, g3, g4, g5, g6⟩ :=
    itemPhase_spec w ((loc.search).get_available_items.take 2) (loc.search, w.player) hresI havI
  -- the clue phase
  have hgc : (((loc.search).get_available_items.take 2).foldl (searchItemStep w)
      (loc.search, w.player)).1.get_available_clues = loc.get_available_clues :=
    get_available_clues_congr _ _ (by rw [g3, s5]) (by rw [g2, s3])
  have havC : ∀ c ∈ (((loc.search).get_available_items.take 2).foldl (searchItemStep w)
      (loc.search, w.player)).1.get_available_clues.take 2,
      c ∈ (((loc.search).get_available_items.take 2).foldl (searchItemStep w)
        (loc.search, w.player)).1.clues_available := by
    intro c hc
    have h1 := List.take_subset 2 _ hc
    have h2 : c ∈ (((loc.search).get_available_items.take 2).foldl (searchItemStep w)
        (loc.search, w.player)).1.clues_available.filter
        (fun clue => decide (clue ∉ (((loc.search).get_available_items.take 2).foldl
          (searchItemStep w) (loc.search, w.player)).1.clues_found)) := h1
    exact (List.mem_filter.mp h2).1
  obtain ⟨c1, c2, c3⟩ := cluePhase_spec w
    ((((loc.search).get_available_items.take 2).foldl (searchItemStep w)
      (loc.search, w.player)).1.get_available_clues.take 2)
    (((loc.search).get_available_items.take 2).foldl (searchItemStep w)
      (loc.search, w.player)) havC g6
  -- name the final location-player pair and its properties
  generalize hst2 : ((((loc.search).get_available_items.take 2).foldl (searchItemStep w)
      (loc.search, w.player)).1.get_available_clues.take 2).foldl (searchClueStep w)
    (((loc.search).get_available_items.take 2).foldl (searchItemStep w)
      (loc.search, w.player)) = st2 at c1 c2 c3
  have h3 : st2.1.id = loc.id := by rw [c3, g5, s1]
  have h1 : st2.1.items_taken = loc.items_taken ∪ (loc.get_available_items.take 2).toFinset := by
    rw [c2, g1, s2, hgi]
  have h2 : st2.1.clues_found = loc.clues_found ∪ ((loc.get_available_clues.take 2).filter
      (fun c => clueDiscoverableId w w.player c)).toFinset := by
    rw [c1, g2, s3, hgc]
  -- the engine equation
  have heq : SimpleGameEngine.search_location w
      = some (SimpleGameEngine.update_quest_progress
          { w with player := st2.2,
                   locations := w.locations.map
                     (fun l : Location => if l.id = st2.1.id then st2.1 else l) }) := by
    rw [← hst2]
    simp only [SimpleGameEngine.search_location, hloc]
  have hloc2 : (w.locations.find? (fun l => l.id == w.player.current_location)) = some loc := hloc
  have hmem : loc ∈ w.locations := List.mem_of_find?_eq_some hloc2
  rw [heq]
  refine ⟨rfl, ?_, ?_⟩
  · simp only [Option.getD_some]
    show ((w.locations.map (fun l : Location => if l.id = st2.1.id then st2.1 else l)).find?
        (fun l => l.id == loc.id)).map Location.items_taken = _
    rw [h3, find_replaced w.locations loc.id st2.1 h3 ⟨loc, hmem, rfl⟩, Option.map_some', h1]
  · simp only [Option.getD_some]
    show ((w.locations.map (fun l : Location => if l.id = st2.1.id then st2.1 else l)).find?
        (fun l => l.id == loc.id)).map Location.clues_found = _
    rw [h3, find_replaced w.locations loc.id st2.1 h3 ⟨loc, hmem, rfl⟩, Option.map_some', h2]

/-- Witness for C7: at the crime scene (investigation 7 against clue gates 5
and 6) one search takes the item, finds both clues, and leaves zero
available clues. -/
theorem search_discovers_first_two_witness :
    ((SimpleGameEngine.search_location sampleWorld).isSome = true ∧
     (((SimpleGameEngine.search_location sampleWorld).getD sampleWorld).get_location
         crimeScene.id).map Location.items_taken
       = some (crimeScene.items_taken ∪ (crimeScene.get_available_items.take 2).toFinset) ∧
     (((SimpleGameEngine.search_location sampleWorld).getD sampleWorld).get_location
         crimeScene.id).map Location.clues_found
       = some (crimeScene.clues_found ∪ ((crimeScene.get_available_clues.take 2).filter
           (fun c => clueDiscoverableId sampleWorld sampleWorld.player c)).toFinset)) ∧
    (sampleWorldSearched.get_location "crime_scene").map Location.get_available_clues
      = some [] ∧
    sampleWorldSearched.player.clues_found = ["clue5", "clue6"] :=
  ⟨search_discovers_first_two sampleWorld crimeScene rfl (by decide) (by decide),
   by decide, by decide⟩

/-- Helper: anything `travelActionFor` emits is a travel action targeting
the connection it was built from, and only when travel is allowed. -/
theorem travelActionFor_shape (w : WorldState) (loc : Location) (c : String) (a : GameAction)
    (h : travelActionFor w loc c = some a) :
    a.type = "travel" ∧ a.target = some c ∧ (loc.can_travel_to c w.player w).1 = true := by
  unfold travelActionFor at h
  rcases hgl : w.get_location c with _ | cl
  · rw [hgl] at h
    cases h
  · rw [hgl] at h
    by_cases hcan : (loc.can_travel_to c w.player w).1 = true
    · simp only [hcan, if_true] at h
      cases h
      exact ⟨rfl, rfl, hcan⟩
    · simp only [hcan, if_false] at h
      cases h

/-- Helper: no travel action for target t is emitted from connections not
containing t. -/
theorem count_travels_zero (w : WorldState) (loc : Location) (t : String)
    (conns : List String) (hnt : t ∉ conns) :
    (conns.filterMap (travelActionFor w loc)).countP
      (fun a => a.type == "travel" && a.target == some t) = 0 := by
  rw [List.countP_eq_zero]
  intro a ha
  obtain ⟨c, hc, hfc⟩ := List.mem_filterMap.mp ha
  obtain ⟨-, hat, -⟩ := travelActionFor_shape w loc c a hfc
  simp only [Bool.and_eq_true, beq_iff_eq]
  rintro ⟨-, hat2⟩
  rw [hat] at hat2
  cases hat2
  exact hnt hc

/-- Helper: the number of travel actions for target t over a nodup,
registry-resolving connection list is one exactly when t is a connection
and travel to it is allowed. -/
theorem count_travels (w : WorldState) (loc : Location) (t : String) :
    ∀ conns : List String, conns.Nodup →
      (∀ c ∈ conns, (w.get_location c).isSome = true) →
      (conns.filterMap (travelActionFor w loc)).countP
          (fun a => a.type == "travel" && a.target == some t)
        = if t ∈ conns ∧ (loc.can_travel_to t w.player w).1 = true then 1 else 0 := by
  intro conns
  induction conns with
  | nil =>
    intro _ _
    simp
  | cons c tl ih =>
    intro hnd hres
    obtain ⟨hc1, hc2⟩ := List.nodup_cons.mp hnd
    rcases hgl : w.get_location c with _ | cl
    · have := hres c (List.mem_cons_self c tl)
      rw [hgl] at this
      cases this
    · by_cases hcan : (loc.can_travel_to c w.player w).1 = true
      · have hfc : travelActionFor w loc c
            = some { id := "travel_" ++ c, text := "Travel to " ++ cl.name,
                     type := "travel", target := some c } := by
          simp [travelActionFor, hgl, hcan]
        rw [List.filterMap_cons_some hfc, List.countP_cons,
          ih hc2 (fun x hx => hres x (List.mem_cons_of_mem c hx))]
        by_cases hct : c = t
        · subst hct
          simp [hc1, hcan, List.mem_cons]
        · have htc : ¬t = c := fun h => hct h.symm
          simp [List.mem_cons, htc]
          exact hct
      · have hfc : travelActionFor w loc c = none := by
          simp [travelActionFor, hgl, hcan]
        rw [List.filterMap_cons_none hfc,
          ih hc2 (fun x hx => hres x (List.mem_cons_of_mem c hx))]
        by_cases hct : c = t
        · subst hct
          simp [hc1, hcan, List.mem_cons]
        · have htc : ¬t = c := fun h => hct h.symm
          simp [List.mem_cons, htc]

/-- Helper: in a list of NPCs with distinct ids containing n, exactly one
entry has n's id, so the count of entries with n's id satisfying P is one
when P holds of n and zero otherwise. -/
theorem count_npc_by_id (n : NPC) (P : NPC → Bool) :
    ∀ l : List NPC, (l.map NPC.id).Nodup → n ∈ l →
      l.countP (fun x => (x.id == n.id) && P x) = if P n = true then 1 else 0 := by
  intro l
  induction l with
  | nil =>
    intro _ hn
    cases hn
  | cons a tl ih =>
    intro hnd hn
    rw [List.countP_cons]
    have hnd2 : (tl.map NPC.id).Nodup := (List.nodup_cons.mp (by simpa using hnd)).2
    have hhead : a.id ∉ tl.map NPC.id := (List.nodup_cons.mp (by simpa using hnd)).1
    rcases List.mem_cons.mp hn with rfl | htl
    · have hz : tl.countP (fun x => (x.id == n.id) && P x) = 0 := by
        rw [List.countP_eq_zero]
        intro x hx
        simp only [Bool.and_eq_true, beq_iff_eq]
        rintro ⟨hxid, -⟩
        exact hhead (List.mem_map.mpr ⟨x, hx, hxid⟩)
      rw [hz]
      by_cases hp : P n = true <;> simp [hp]
    · have hane : (a.id == n.id) = false := by
        rw [beq_eq_false_iff_ne]
        intro he
        exact hhead (by rw [he]; exact List.mem_map.mpr ⟨n, htl, rfl⟩)
      rw [ih hnd2 htl]
      simp [hane]

/-- C9: the action list for the current location contains exactly one
examine action, exactly one talk action per NPC standing at the location,
one search action iff an undiscovered item or clue remains, and exactly one
travel action per connected neighbor whose edge requirements currently
evaluate true. -/
theorem get_available_actions_spec (w : WorldState) (loc : Location)
    (hloc : w.get_current_location = some loc)
    (hnpc : (w.npcs.map NPC.id).Nodup)
    (hconn : loc.connections.Nodup)
    (hres : ∀ cid ∈ loc.connections, (w.get_location cid).isSome = true) :
    ((SimpleGameEngine.get_available_actions w).countP
        (fun a => a.type == "examine") = 1) ∧
    (∀ n ∈ w.npcs,
      (SimpleGameEngine.get_available_actions w).countP
          (fun a => a.type == "talk" && a.target == some n.id) =
        if n.current_location = loc.id then 1 else 0) ∧
    (((SimpleGameEngine.get_available_actions w).countP
        (fun a => a.type == "search") = 1) ↔
      (loc.get_available_items ≠ [] ∨ loc.get_available_clues ≠ [])) ∧
    (∀ t : String,
      (SimpleGameEngine.get_available_actions w).countP
          (fun a => a.type == "travel" && a.target == some t) =
        if t ∈ loc.connections ∧ (loc.can_travel_to t w.player w).1 = true then 1 else 0) := by
  have hact : SimpleGameEngine.get_available_actions w =
      [examineActionFor loc] ++
      (w.get_npcs_at_location loc.id).map talkActionFor ++
      (if loc.get_available_items ≠ [] ∨ loc.get_available_clues ≠ [] then
        [searchAction]
       else []) ++
      loc.connections.filterMap (travelActionFor w loc) := by
    simp only [SimpleGameEngine.get_available_actions, hloc]
  have hTalkShape : ∀ a ∈ (w.get_npcs_at_location loc.id).map talkActionFor,
      a.type = "talk" := by
    intro a ha
    obtain ⟨npc, hm, rfl⟩ := List.mem_map.mp ha
    rfl
  have hSearchShape : ∀ a ∈ (if loc.get_available_items ≠ [] ∨
      loc.get_available_clues ≠ [] then [searchAction] else []), a.type = "search" := by
    intro a ha
    by_cases hs : loc.get_available_items ≠ [] ∨ loc.get_available_clues ≠ []
    · rw [if_pos hs, List.mem_singleton] at ha
      rw [ha]
      rfl
    · rw [if_neg hs] at ha
      cases ha
  have hTravShape : ∀ a ∈ loc.connections.filterMap (travelActionFor w loc),
      a.type = "travel" := by
    intro a ha
    obtain ⟨c, hc, hfc⟩ := List.mem_filterMap.mp ha
    exact (travelActionFor_shape w loc c a hfc).1
  refine ⟨?_, ?_, ?_, ?_⟩
  · rw [hact, List.countP_append, List.countP_append, List.countP_append]
    have h2 : ((w.get_npcs_at_location loc.id).map talkActionFor).countP
        (fun a => a.type == "examine") = 0 :=
      List.countP_eq_zero.mpr (fun a ha => by simp [hTalkShape a ha])
    have h3 : (if loc.get_available_items ≠ [] ∨ loc.get_available_clues ≠ [] then
        [searchAction] else []).countP (fun a => a.type == "examine") = 0 :=
      List.countP_eq_zero.mpr (fun a ha => by simp [hSearchShape a ha])
    have h4 : (loc.connections.filterMap (travelActionFor w loc)).countP
        (fun a => a.type == "examine") = 0 :=
      List.countP_eq_zero.mpr (fun a ha => by simp [hTravShape a ha])
    rw [h2, h3, h4]
    rfl
  · intro n hn
    rw [hact, List.countP_append, List.countP_append, List.countP_append]
    have h1 : ([examineActionFor loc] : List GameAction).countP
        (fun a => a.type == "talk" && a.target == some n.id) = 0 := by
      simp [examineActionFor]
    have h3 : (if loc.get_available_items ≠ [] ∨ loc.get_available_clues ≠ [] then
        [searchAction] else []).countP
        (fun a => a.type == "talk" && a.target == some n.id) = 0 :=
      List.countP_eq_zero.mpr (fun a ha => by simp [hSearchShape a ha])
    have h4 : (loc.connections.filterMap (travelActionFor w loc)).countP
        (fun a => a.type == "talk" && a.target == some n.id) = 0 :=
      List.countP_eq_zero.mpr (fun a ha => by simp [hTravShape a ha])
    have hfun : ((fun a : GameAction => a.type == "talk" && a.target == some n.id)
        ∘ talkActionFor) = fun x : NPC => (x.id == n.id) := by
      funext x
      by_cases hxy : x.id = n.id
      · simp [talkActionFor, hxy]
      · simp [talkActionFor, hxy]
    have h2 : ((w.get_npcs_at_location loc.id).map talkActionFor).countP
        (fun a => a.type == "talk" && a.target == some n.id)
        = if n.current_location = loc.id then 1 else 0 := by
      rw [List.countP_map, hfun]
      show (w.npcs.filter (fun nn => nn.current_location == loc.id)).countP
        (fun x : NPC => (x.id == n.id)) = _
      rw [List.countP_filter,
        count_npc_by_id n (fun x => x.current_location == loc.id) w.npcs hnpc hn]
      by_cases hcl : n.current_location = loc.id
      · simp [hcl]
      · simp [hcl]
    rw [h1, h2, h3, h4]
    omega
  · rw [hact, List.countP_append, List.countP_append, List.countP_append]
    have h1 : ([examineActionFor loc] : List GameAction).countP
        (fun a => a.type == "search") = 0 := by
      simp [examineActionFor]
    have h2 : ((w.get_npcs_at_location loc.id).map talkActionFor).countP
        (fun a => a.type == "search") = 0 :=
      List.countP_eq_zero.mpr (fun a ha => by simp [hTalkShape a ha])
    have h4 : (loc.connections.filterMap (travelActionFor w loc)).countP
        (fun a => a.type == "search") = 0 :=
      List.countP_eq_zero.mpr (fun a ha => by simp [hTravShape a ha])
    rw [h1, h2, h4]
    by_cases hs : loc.get_available_items ≠ [] ∨ loc.get_available_clues ≠ []
    · rw [if_pos hs]
      exact iff_of_true (by rfl) hs
    · rw [if_neg hs]
      exact iff_of_false (by simp) hs
  · intro t
    rw [hact, List.countP_append, List.countP_append, List.countP_append]
    have h1 : ([examineActionFor loc] : List GameAction).countP
        (fun a => a.type == "travel" && a.target == some t) = 0 := by
      simp [examineActionFor]
    have h2 : ((w.get_npcs_at_location loc.id).map talkActionFor).countP
        (fun a => a.type == "travel" && a.target == some t) = 0 :=
      List.countP_eq_zero.mpr (fun a ha => by simp [hTalkShape a ha])
    have h3 : (if loc.get_available_items ≠ [] ∨ loc.get_available_clues ≠ [] then
        [searchAction] else []).countP
        (fun a => a.type == "travel" && a.target == some t) = 0 :=
      List.countP_eq_zero.mpr (fun a ha => by simp [hSearchShape a ha])
    rw [h1, h2, h3, count_travels w loc t loc.connections hconn hres]
    omega

/-- Witness for C9: the travel action to the forensics lab is absent while
the player lacks the clue "wine_residue" and present once they have it. -/
theorem get_available_actions_spec_witness :
    (SimpleGameEngine.get_available_actions sampleWorldAtStation).countP
        (fun a => a.type == "travel" && a.target == some "forensics_lab") = 0 ∧
    (SimpleGameEngine.get_available_actions sampleWorldAtStationWithClue).countP
        (fun a => a.type == "travel" && a.target == some "forensics_lab") = 1 := by
  constructor
  · have h := (get_available_actions_spec sampleWorldAtStation policeStation rfl
      (by decide) (by decide) (by decide)).2.2.2 "forensics_lab"
    rw [h]
    decide
  · have h := (get_available_actions_spec sampleWorldAtStationWithClue policeStation rfl
      (by decide) (by decide) (by decide)).2.2.2 "forensics_lab"
    rw [h]
    decide
